import Mathlib

/-!
Verification of the `gmtm` Telegram movie-recommendation webhook handler
(package `handler`, file `api/handler.go`). The source file contains two
near-duplicate implementations of the same handler; where they differ the
embedding models each variant separately (`sendToClient` for the first
implementation, `sendToClient2` for the second).

Shallow-embedding conventions:
- Go strings are Lean `String`s; the byte-level Go operations used by the
  source (`strings.ReplaceAll(s, " ", "")`, `strings.Split(s, ",")`,
  `strings.TrimSpace`, `strings.ToLower`) are modelled at the character
  level, which coincides with the byte level because the separators and
  trimmed characters involved are single ASCII characters.
- JSON decoding (`json.NewDecoder(r.Body).Decode(&update)`) is abstracted:
  the request body is an `Option Update`, `none` meaning the payload is not
  valid JSON of the expected shape.
- Network effects are abstracted as explicit inputs: the scrape fetch is a
  function `String → Option (List ScrapedElement)` (`none` = network error,
  `some elems` = the elements of the fetched document matching the fixed
  CSS selector `h3[class="lister-item-header"]`, in document order), and an
  outbound `http.PostForm` outcome is an `Option HTTPResponse` (`none` =
  the call itself returned a non-nil error).
- A Go panic (index out of range, nil-pointer dereference) is modelled by
  `Option`-valued results, `none` meaning the function panics.
-/

namespace GMTM

/-- Chat indicates the conversation to which the Message belongs
(source: `type Chat struct { ID int }`). -/
structure Chat where
  ID : Int
deriving DecidableEq

/-- Audio refers to an audio file sent
(source: `type Audio struct { FileID string; Duration int }`). -/
structure Audio where
  FileID : String
  Duration : Int
deriving DecidableEq

/-- Voice has the same attributes as an Audio message
(source: `type Voice Audio`). -/
abbrev Voice := Audio

/-- Document refers to a file sent
(source: `type Document struct { FileID string; FileName string }`). -/
structure Document where
  FileID : String
  FileName : String
deriving DecidableEq

/-- Message is a Telegram object that can be found in an update
(source: `type Message struct`). -/
structure Message where
  Text : String
  Chat : Chat
  Audio : Audio
  Voice : Voice
  Document : Document
deriving DecidableEq

/-- Update is the Telegram object received every time a user interacts with
the bot (source: `type Update struct { UpdateID int; Message Message }`;
the second implementation spells the field `UpdateId`). -/
structure Update where
  UpdateID : Int
  Message : Message
deriving DecidableEq

/-- Errors returned by `parseIncomingRequest`: the JSON decode error, and
the explicit `errors.New` for a zero update id. -/
inductive ParseError where
  | decodeError
  | invalidID
deriving DecidableEq

/-- parseIncomingRequest (lines 105-119 and 299-313, identical logic):
decode the body, then reject a decoded update whose id is exactly 0.
The JSON decode itself is abstracted as the `Option Update` input. -/
def parseIncomingRequest (body : Option Update) : Except ParseError Update :=
  match body with
  | none => Except.error ParseError.decodeError
  | some update =>
    if update.UpdateID = 0 then Except.error ParseError.invalidID
    else Except.ok update

/-- Character-level model of Go `strings.Split(s, ",")`: split around every
occurrence of the comma; adjacent commas yield empty fields and the result
always has at least one element (`[""]` on empty input), exactly as in Go. -/
def splitOnCommaChars : List Char → List (List Char)
  | [] => [[]]
  | c :: cs =>
    let rest := splitOnCommaChars cs
    if c = ',' then [] :: rest
    else
      match rest with
      | [] => [[c]]
      | w :: ws => (c :: w) :: ws

/-- Model of `strings.ReplaceAll(incomingText, " ", "")` (line 198 / 329):
replacing every occurrence of the one-character string `" "` by the empty
string removes exactly the space characters (U+0020), and no other
whitespace. -/
def removeSpaces (s : String) : String :=
  String.mk (s.data.filter (fun c => c ≠ ' '))

/-- getKeywords (lines 197-200; inlined at lines 329-330 of the second
implementation): remove the space characters, then split on comma. -/
def getKeywords (incomingText : String) : List String :=
  (splitOnCommaChars (removeSpaces incomingText).data).map String.mk

/-- Keyword extraction as the specification words it: strip ALL whitespace
(not only spaces) from the text, then split on comma. Kept separate from
`getKeywords` to compare the source behaviour with the spec text. -/
def getKeywordsAllWhitespace (incomingText : String) : List String :=
  (splitOnCommaChars (incomingText.data.filter (fun c => ¬ c.isWhitespace))).map String.mk

/-- A scraped HTML element matching the selector
`h3[class="lister-item-header"]`, abstracted as the list of the text
contents of its immediate children, in order. -/
structure ScrapedElement where
  childTexts : List String
deriving DecidableEq

/-- Model of goquery `element.DOM.Children().Text()` (line 188 / 355):
`Children()` selects ALL immediate children and `Text()` returns their
concatenated text contents. -/
def childrenText (e : ScrapedElement) : String := String.join e.childTexts

/-- Character-level model of Go `strings.TrimSpace`: drop leading and
trailing whitespace. -/
def trimSpace (s : String) : String :=
  String.mk (((s.data.dropWhile Char.isWhitespace).reverse.dropWhile Char.isWhitespace).reverse)

/-- The OnHTML accumulator of getMovies (lines 187-189 / 354-356): for each
matched element, in document order,
`movies += strings.TrimSpace(element.DOM.Children().Text()) + "\n"`. -/
def moviesAccum (elems : List ScrapedElement) : String :=
  elems.foldl (fun acc e => acc ++ (trimSpace (childrenText e) ++ "\n")) ""

/-- Title extraction as the specification words it: for each matched
element take the trimmed text of its FIRST nested text-bearing child (the
first child with non-empty text). Kept separate from `moviesAccum` to
compare the source behaviour with the spec text. -/
def firstChildText (e : ScrapedElement) : String :=
  ((e.childTexts.filter (fun t => t ≠ "")).headD "")

/-- Accumulator as the specification words it (first text-bearing child
instead of all children). -/
def moviesAccumSpec (elems : List ScrapedElement) : String :=
  elems.foldl (fun acc e => acc ++ (trimSpace (firstChildText e) ++ "\n")) ""

/-- Fixed base search endpoint (source constant `IMDB_URL`). -/
def IMDB_URL : String := "https://www.imdb.com/search/keyword/?keywords="

/-- URL-building loop of getMovies (lines 178-181 / 344-348):
`URL := IMDB_URL + keywords[0]` then, for `i` from 1 to `len-1`,
`URL += "%2C" + keywords[i]`. No other URL-escaping is applied. -/
def buildURL (first : String) (rest : List String) : String :=
  rest.foldl (fun URL kw => URL ++ "%2C" ++ kw) (IMDB_URL ++ first)

/-- Slice indices read from `keywords` by getMovies: index 0
(unconditionally), then every `i` with `1 ≤ i < n` (the loop). -/
def accessedIndices (n : Nat) : List Nat := 0 :: (List.range n).drop 1

/-- getMovies (lines 177-194 / 343-361). `fetch` is the scrape client
(`c.Visit`): `none` models a network error, in which case the OnHTML
callback never fires and `movies` stays `""`; the error value returned by
`Visit` is discarded by the source. The result is `none` exactly when the
source panics: `keywords[0]` on an empty slice is a fatal index-out-of-range
error. -/
def getMovies (fetch : String → Option (List ScrapedElement)) :
    List String → Option String
  | [] => none
  | k :: ks =>
    let elems := (fetch (buildURL k ks)).getD []
    some (moviesAccum elems)

/-- Character-level model of Go `strings.ToLower` (applied by Handler at
line 95 / 295 before calling sendToClient). -/
def toLowerGo (s : String) : String := String.mk (s.data.map Char.toLower)

/-- The fixed greeting string sent for the start command
(lines 126, 149 and 320 share this literal). -/
def greeting : String :=
  "Hey dude!\nGive me some keywords (comma delimited) to recommend you movies :D"

/-- Reply-text selection of the first implementation of sendToClient
(lines 122-156): an early `if incomingText == "/start"` posts the greeting
and returns; otherwise the `switch` posts the greeting for `"start"` and
the getMovies result for everything else. `none` propagates a getMovies
panic (unreachable from the handler, since getKeywords never returns an
empty list). -/
def chooseReply (fetch : String → Option (List ScrapedElement))
    (incomingText : String) : Option String :=
  if incomingText = "/start" then some greeting
  else if incomingText = "start" then some greeting
  else getMovies fetch (getKeywords incomingText)

/-- Errors returned by the first implementation of sendToClient: a non-nil
error from `http.PostForm` (the transmission failing), or a non-nil error
from `io.ReadAll` on the response body. -/
inductive DispatchError where
  | transmissionError
  | bodyReadError
deriving DecidableEq

/-- An HTTP response as far as the source observes it: a status code
(never inspected by the source) and the outcome of reading the body
(`none` = `io.ReadAll` failed). -/
structure HTTPResponse where
  status : Nat
  body : Option String
deriving DecidableEq

/-- Outcome handling of the single `http.PostForm` call in the first
implementation of sendToClient (lines 158-173, and identically 124-142):
return a transmission error if the call itself failed, otherwise read the
body and return it; the HTTP status code is never consulted and there is
no retry. -/
def postReply (result : Option HTTPResponse) : Except DispatchError String :=
  match result with
  | none => Except.error DispatchError.transmissionError
  | some response =>
    match response.body with
    | none => Except.error DispatchError.bodyReadError
    | some b => Except.ok b

/-- The form values posted to the Telegram endpoint:
`url.Values{"chat_id": {strconv.Itoa(chatID)}, "text": {...}}`. -/
structure FormValues where
  chat_id : String
  text : String
deriving DecidableEq

/-- sendToClient, first implementation (lines 122-174): choose the reply
text, post the form (outcome `post`), and handle the outcome. The result
is `none` if the reply-text computation panics (unreachable from the
handler), otherwise the form values sent together with the dispatch
result. -/
def sendToClient (fetch : String → Option (List ScrapedElement))
    (post : Option HTTPResponse) (chatID : Int) (incomingText : String) :
    Option (FormValues × Except DispatchError String) :=
  (chooseReply fetch incomingText).map
    (fun text => (⟨toString chatID, text⟩, postReply post))

/-- The HTTP response writer as far as the source could observe it: an
explicitly written status code and an accumulated body. -/
structure ResponseWriter where
  statusWritten : Option Nat
  bodyWritten : String
deriving DecidableEq

/-- Handler, first implementation (lines 88-102): parse the incoming
request (on failure log and return), send to the client with the
lower-cased text (on failure log and return), log success. The writer `w`
is threaded through every path; the source never calls any method on it. -/
def Handler (w : ResponseWriter) (body : Option Update)
    (fetch : String → Option (List ScrapedElement))
    (post : Option HTTPResponse) : ResponseWriter :=
  match parseIncomingRequest body with
  | Except.error _ => w
  | Except.ok update =>
    match sendToClient fetch post update.Message.Chat.ID
        (toLowerGo update.Message.Text) with
    | none => w
    | some (_, Except.error _) => w
    | some (_, Except.ok _) => w

/-- sendToClient, second implementation (lines 316-341): every
`http.PostForm` error is discarded (`response, _ := ...`) and
`response.Body.Close()` is executed unconditionally, so a failed call
leaves `response` nil and closing its body is a nil-pointer fault. The
result is `some ()` for a completed call and `none` for a panic.
`postStart` is the outcome of the greeting post inside the `"/start"`
case (lines 322-326), `postFinal` the outcome of the unconditional final
post (lines 335-339); this implementation has no `"start"` case. -/
def sendToClient2 (fetch : String → Option (List ScrapedElement))
    (postStart postFinal : Option HTTPResponse) (incomingText : String) :
    Option Unit :=
  if incomingText = "/start" then
    match postStart with
    | none => none
    | some _ =>
      match postFinal with
      | none => none
      | some _ => some ()
  else
    match getMovies fetch (getKeywords incomingText) with
    | none => none
    | some _ =>
      match postFinal with
      | none => none
      | some _ => some ()

/-- Concatenation of the images of a list under a string-valued function;
used to state the accumulator loops in closed form. -/
def joinMap {α : Type} (f : α → String) : List α → String
  | [] => ""
  | x :: xs => f x ++ joinMap f xs

/-- A concrete valid update used by witnesses. -/
def sampleUpdate : Update :=
  ⟨7, ⟨"Drama, Heist", ⟨42⟩, ⟨"", 0⟩, ⟨"", 0⟩, ⟨"", ""⟩⟩⟩

theorem splitOnCommaChars_ne_nil : ∀ l : List Char, splitOnCommaChars l ≠ [] := by
  intro l
  induction l with
  | nil => simp [splitOnCommaChars]
  | cons c cs ih =>
    simp only [splitOnCommaChars]
    split
    · simp
    · split
      · simp
      · simp

theorem getKeywords_ne_nil (s : String) : getKeywords s ≠ [] := by
  unfold getKeywords
  intro h
  exact splitOnCommaChars_ne_nil (removeSpaces s).data (List.map_eq_nil_iff.mp h)

theorem foldl_append_joinMap {α : Type} (f : α → String) :
    ∀ (l : List α) (acc : String),
      l.foldl (fun a x => a ++ f x) acc = acc ++ joinMap f l
  | [], acc => by simp [joinMap, String.append_empty]
  | x :: xs, acc => by
    simp only [List.foldl_cons, joinMap]
    rw [foldl_append_joinMap f xs (acc ++ f x), String.append_assoc]

/-- C1 (counterexample): keyword extraction does NOT strip all whitespace —
`strings.ReplaceAll(s, " ", "")` removes only the space character U+0020,
so a tab survives into the keyword list and the result differs from the
all-whitespace-stripping behaviour the claim describes. -/
theorem getKeywords_tab_counterexample :
    getKeywords "a,\tb,c" = ["a", "\tb", "c"] ∧
    getKeywordsAllWhitespace "a,\tb,c" = ["a", "b", "c"] ∧
    getKeywords "a,\tb,c" ≠ getKeywordsAllWhitespace "a,\tb,c" := by
  refine ⟨by decide, by decide, by decide⟩

/-- C1 (amended): keyword extraction first removes all space characters
(U+0020) from the text and then splits on comma, so it is insensitive to
spaces (though not to other whitespace such as tabs); the inputs
`"a, b,c"` and `"a,b,c"` both yield `["a","b","c"]`. -/
theorem getKeywords_space_insensitive :
    (∀ s t : String, getKeywords (s ++ " " ++ t) = getKeywords (s ++ t)) ∧
    getKeywords "a, b,c" = ["a", "b", "c"] ∧
    getKeywords "a,b,c" = ["a", "b", "c"] := by
  refine ⟨?_, by decide, by decide⟩
  intro s t
  have hmid : (" ".data.filter (fun c => c ≠ ' ')) = [] := rfl
  have h : removeSpaces (s ++ " " ++ t) = removeSpaces (s ++ t) := by
    simp [removeSpaces, String.data_append, List.filter_append, hmid]
  simp [getKeywords, h]

/-- C2 (counterexample): the accumulator uses the concatenated text of ALL
immediate children of a matched heading (`Children().Text()`), not the text
of the first text-bearing child: on a heading with two text-bearing
children `"Movie One"` and `"(2020)"` the code produces
`"Movie One(2020)\n"` while the claim describes `"Movie One\n"`. -/
theorem moviesAccum_all_children_counterexample :
    moviesAccum [⟨["Movie One", "(2020)"]⟩] = "Movie One(2020)\n" ∧
    moviesAccumSpec [⟨["Movie One", "(2020)"]⟩] = "Movie One\n" ∧
    moviesAccum [⟨["Movie One", "(2020)"]⟩] ≠
      moviesAccumSpec [⟨["Movie One", "(2020)"]⟩] := by
  refine ⟨by decide, by decide, by decide⟩

/-- C2 (amended): for each element matching the fixed heading selector the
accumulator takes the trimmed concatenation of the texts of all its
immediate children, appends a newline, and accumulates in document order;
a document with exactly two matching headings whose (single-child) texts
are `"Movie One"` and `"Movie Two"` produces `"Movie One\nMovie Two\n"`. -/
theorem moviesAccum_document_order :
    (∀ elems : List ScrapedElement,
      moviesAccum elems =
        joinMap (fun e => trimSpace (childrenText e) ++ "\n") elems) ∧
    moviesAccum [⟨["Movie One"]⟩, ⟨["Movie Two"]⟩] = "Movie One\nMovie Two\n" := by
  refine ⟨?_, by decide⟩
  intro elems
  have h := foldl_append_joinMap
    (fun e => trimSpace (childrenText e) ++ "\n") elems ""
  simpa [moviesAccum] using h

/-- C3: decoding fails exactly when the payload is not valid JSON of the
expected shape (`body = none`) or the decoded update id is 0; every valid
payload with a non-zero id decodes to the payload's update itself, hence
carries its chat id and message text verbatim. -/
theorem parseIncomingRequest_ok_iff :
    (∀ (body : Option Update) (u : Update),
      parseIncomingRequest body = Except.ok u ↔
        body = some u ∧ u.UpdateID ≠ 0) ∧
    (∀ u : Update, u.UpdateID ≠ 0 →
      parseIncomingRequest (some u) = Except.ok u) := by
  constructor
  · intro body u
    cases body with
    | none => simp [parseIncomingRequest]
    | some v =>
      by_cases h : v.UpdateID = 0
      · simp only [parseIncomingRequest, if_pos h]
        constructor
        · intro hc; exact absurd hc (by simp)
        · rintro ⟨hv, hu⟩
          injection hv with hv
          exact absurd (hv ▸ h) hu
      · simp [parseIncomingRequest, if_neg h]
        intro hv
        subst hv
        exact h
  · intro u h
    simp [parseIncomingRequest, h]

/-- Witness for C3 at a concrete valid update. -/
theorem parseIncomingRequest_ok_iff_witness :
    parseIncomingRequest (some sampleUpdate) = Except.ok sampleUpdate :=
  parseIncomingRequest_ok_iff.2 sampleUpdate (by decide)

/-- C4: for a non-empty keyword list the query URL is the fixed base
concatenated with the first keyword followed by `"%2C" ++ kw` for every
subsequent keyword in order, with no other escaping; for `["x","y"]` it is
the base concatenated with `"x%2Cy"`. -/
theorem buildURL_spec :
    (∀ (k : String) (ks : List String),
      buildURL k ks = IMDB_URL ++ k ++ joinMap (fun kw => "%2C" ++ kw) ks) ∧
    buildURL "x" ["y"] = IMDB_URL ++ "x%2Cy" := by
  refine ⟨?_, by decide⟩
  intro k ks
  have h : buildURL k ks =
      ks.foldl (fun a kw => a ++ ("%2C" ++ kw)) (IMDB_URL ++ k) := by
    unfold buildURL
    congr 1
    funext a kw
    rw [String.append_assoc]
  rw [h, foldl_append_joinMap]

/-- C5: Movie Lookup requires a non-empty keyword list: on the empty list
it panics (modelled by `none`, from `keywords[0]` out of range), and under
the non-empty precondition it completes (`isSome`) and every slice index it
reads is in bounds. -/
theorem getMovies_requires_nonempty :
    (∀ fetch : String → Option (List ScrapedElement), getMovies fetch [] = none) ∧
    (∀ (fetch : String → Option (List ScrapedElement)) (keywords : List String),
      keywords ≠ [] →
        (getMovies fetch keywords).isSome = true ∧
        ∀ i ∈ accessedIndices keywords.length, i < keywords.length) := by
  constructor
  · intro fetch
    rfl
  · intro fetch keywords h
    match keywords, h with
    | k :: ks, _ =>
      refine ⟨rfl, ?_⟩
      intro i hi
      simp only [accessedIndices, List.mem_cons] at hi
      rcases hi with rfl | hi
      · simp
      · exact List.mem_range.mp (List.mem_of_mem_drop hi)

/-- Witness for C5 at the one-element keyword list. -/
theorem getMovies_requires_nonempty_witness :
    (getMovies (fun _ => none) ["x"]).isSome = true ∧
    ∀ i ∈ accessedIndices (["x"] : List String).length,
      i < (["x"] : List String).length :=
  getMovies_requires_nonempty.2 (fun _ => none) ["x"] (by decide)

/-- C6: when the scrape fetch fails with a network error the reply sent
for a free-text request carries the empty string as its text, and the
result is `some _`: no panic or exception escapes — the scrape error is
swallowed inside getMovies. -/
theorem scrape_failure_empty_reply (chatID : Int) (post : Option HTTPResponse)
    (t : String) (h1 : t ≠ "/start") (h2 : t ≠ "start") :
    sendToClient (fun _ => none) post chatID t =
      some (⟨toString chatID, ""⟩, postReply post) := by
  rcases List.exists_cons_of_ne_nil (getKeywords_ne_nil t) with ⟨k, ks, hk⟩
  simp [sendToClient, chooseReply, h1, h2, hk, getMovies, moviesAccum]

/-- Witness for C6 at a concrete free-text input. -/
theorem scrape_failure_empty_reply_witness :
    sendToClient (fun _ => none) none 5 "drama,heist" =
      some (⟨toString (5 : Int), ""⟩, postReply none) :=
  scrape_failure_empty_reply 5 none "drama,heist" (by decide) (by decide)

/-- C7: a message whose (lower-cased) text is the start command gets the
fixed greeting as its reply text, for every fetch and post outcome and
every chat — the handler keeps no chat history; both the early
`"/start"` check and the `"start"` switch case select the same greeting. -/
theorem start_command_greeting :
    ∀ (fetch : String → Option (List ScrapedElement))
      (post : Option HTTPResponse) (chatID : Int),
      sendToClient fetch post chatID "/start" =
        some (⟨toString chatID, greeting⟩, postReply post) ∧
      sendToClient fetch post chatID "start" =
        some (⟨toString chatID, greeting⟩, postReply post) ∧
      chooseReply fetch "/start" = chooseReply fetch "start" :=
  fun _ _ _ => ⟨rfl, rfl, rfl⟩

/-- C8: the reply dispatch returns a transmission error exactly when the
outbound call itself failed; the HTTP status code is never inspected (the
result is the same for any two status codes, and any response with a
readable body — 2xx or not — yields success with that body). -/
theorem postReply_spec :
    (∀ result : Option HTTPResponse,
      postReply result = Except.error DispatchError.transmissionError ↔
        result = none) ∧
    (∀ (s₁ s₂ : Nat) (b : Option String),
      postReply (some ⟨s₁, b⟩) = postReply (some ⟨s₂, b⟩)) ∧
    (∀ (s : Nat) (b : String), postReply (some ⟨s, some b⟩) = Except.ok b) := by
  refine ⟨?_, ?_, ?_⟩
  · intro result
    cases result with
    | none => simp [postReply]
    | some r =>
      rcases r with ⟨s, b⟩
      cases b <;> simp [postReply]
  · intro s₁ s₂ b
    cases b <;> rfl
  · intro s b
    rfl

/-- C9: the top-level handler never writes to the HTTP response writer —
no status code and no body on any path, success or failure — so the caller
always observes the implicit success status. -/
theorem Handler_writer_unchanged :
    ∀ (w : ResponseWriter) (body : Option Update)
      (fetch : String → Option (List ScrapedElement))
      (post : Option HTTPResponse),
      Handler w body fetch post = w := by
  intro w body fetch post
  unfold Handler
  split
  · rfl
  · split
    · rfl
    · rfl
    · rfl

/-- C10: in the second implementation of sendToClient the POST error is
discarded and the nil response dereferenced, so whenever an outbound call
fails the request panics (result `none`) instead of the error being logged
and swallowed: a failed final post crashes every request, and a failed
greeting post crashes the `"/start"` request. -/
theorem sendToClient2_crashes_on_post_failure :
    (∀ (fetch : String → Option (List ScrapedElement))
       (postStart : Option HTTPResponse) (t : String),
       sendToClient2 fetch postStart none t = none) ∧
    (∀ (fetch : String → Option (List ScrapedElement))
       (postFinal : Option HTTPResponse),
       sendToClient2 fetch none postFinal "/start" = none) := by
  constructor
  · intro fetch postStart t
    unfold sendToClient2
    by_cases h : t = "/start"
    · rw [if_pos h]
      cases postStart <;> rfl
    · rw [if_neg h]
      cases getMovies fetch (getKeywords t) <;> rfl
  · intro fetch postFinal
    rfl

end GMTM
